import Mathlib

/-!
# Verification of the profile-extraction core of `three-loader`

Shallow embedding, over exact rationals, of the profile-extraction code:

* `src/src/profile/points.ts` — the `Points` columnar buffer and `Points.add`;
* `src/unnamed/part_000` (second file in it) — the `Profile` class;
* `src/unnamed/part_002` — `ProfileData`, `ProfileRequest` (`getAccepted`,
  `getPointsInsideProfile`, `updateGenerator`, `cancel`, `finishLevelThenCancel`);
* `src/src/profile/profile-controller.ts` — `ProfileController`
  (`recompute`, `reset`, `progressHandler`, `finishLevelThenCancel`).

Modelling conventions:

* JavaScript floating-point numbers are modelled by `ℚ`.  `Math.sqrt` (reached
  through three.js `Vector3.length`, `normalize`, `distanceTo`) is modelled by
  `Rat.sqrt`, which agrees with the real square root whenever the radicand is a
  perfect rational square; all concrete inputs used below are chosen so that
  every square root taken is exact.
* three.js primitives (`Vector3`, `Plane`, `Matrix4`, `Box3`, `Line3`) are
  re-implemented from their sources: `Plane.distanceToPoint p = normal ⬝ p + constant`,
  `Vector3.applyMatrix4` performs the perspective divide, `Box3.applyMatrix4`
  transforms the eight corners, `Box3.getBoundingSphere` uses the box center and
  half the diagonal length.  The empty `Box3` (min = +∞, max = −∞ in three.js)
  is modelled as `none`.
* Generator timing (`performance.now()` checkpoints, `yield false`) is pure
  scheduling and does not affect which points are accepted or emitted; it is
  not modelled.
-/

/-- Rational 3-vector, modelling three.js `Vector3` (floats modelled by `ℚ`). -/
structure Vec3 where
  x : ℚ
  y : ℚ
  z : ℚ
deriving DecidableEq, Repr

def Vec3.add (a b : Vec3) : Vec3 := ⟨a.x + b.x, a.y + b.y, a.z + b.z⟩

def Vec3.sub (a b : Vec3) : Vec3 := ⟨a.x - b.x, a.y - b.y, a.z - b.z⟩

def Vec3.smul (s : ℚ) (a : Vec3) : Vec3 := ⟨s * a.x, s * a.y, s * a.z⟩

def Vec3.dot (a b : Vec3) : ℚ := a.x * b.x + a.y * b.y + a.z * b.z

/-- three.js `Vector3.cross`. -/
def Vec3.cross (a b : Vec3) : Vec3 :=
  ⟨a.y * b.z - a.z * b.y, a.z * b.x - a.x * b.z, a.x * b.y - a.y * b.x⟩

/-- three.js `Vector3.setZ`. -/
def Vec3.setZ (a : Vec3) (zv : ℚ) : Vec3 := ⟨a.x, a.y, zv⟩

def Vec3.normSq (a : Vec3) : ℚ := a.dot a

/-- three.js `Vector3.length` = `Math.sqrt(x²+y²+z²)`; exact on perfect squares. -/
def Vec3.length (a : Vec3) : ℚ := Rat.sqrt a.normSq

/-- three.js `Vector3.distanceTo`. -/
def Vec3.distanceTo (a b : Vec3) : ℚ := (a.sub b).length

/-- three.js `Vector3.normalize` = `divideScalar(length() || 1)`. -/
def Vec3.normalize (a : Vec3) : Vec3 :=
  let l := a.length
  Vec3.smul (1 / (if l = 0 then 1 else l)) a

/-- Componentwise minimum, three.js `Vector3.min`. -/
def Vec3.vmin (a b : Vec3) : Vec3 := ⟨min a.x b.x, min a.y b.y, min a.z b.z⟩

/-- Componentwise maximum, three.js `Vector3.max`. -/
def Vec3.vmax (a b : Vec3) : Vec3 := ⟨max a.x b.x, max a.y b.y, max a.z b.z⟩

/-- Componentwise order on `Vec3`. -/
def Vec3.le (a b : Vec3) : Prop := a.x ≤ b.x ∧ a.y ≤ b.y ∧ a.z ≤ b.z

instance (a b : Vec3) : Decidable (Vec3.le a b) := by
  unfold Vec3.le; infer_instance

/-- three.js `Plane`: a normal and a constant, with
`distanceToPoint p = normal ⬝ p + constant`. -/
structure Plane where
  normal : Vec3
  constant : ℚ
deriving DecidableEq, Repr

/-- three.js `Plane.setFromNormalAndCoplanarPoint`. -/
def Plane.setFromNormalAndCoplanarPoint (n p : Vec3) : Plane :=
  ⟨n, -(p.dot n)⟩

/-- three.js `Plane.distanceToPoint` (signed distance). -/
def Plane.distanceToPoint (pl : Plane) (p : Vec3) : ℚ :=
  pl.normal.dot p + pl.constant

/-- three.js `Matrix4`, written with row-major mathematical indices
(`m14` is the x-translation component, stored as `elements[12]` in three.js). -/
structure Mat4 where
  m11 : ℚ
  m12 : ℚ
  m13 : ℚ
  m14 : ℚ
  m21 : ℚ
  m22 : ℚ
  m23 : ℚ
  m24 : ℚ
  m31 : ℚ
  m32 : ℚ
  m33 : ℚ
  m34 : ℚ
  m41 : ℚ
  m42 : ℚ
  m43 : ℚ
  m44 : ℚ
deriving DecidableEq, Repr

/-- three.js `Matrix4.identity`. -/
def Mat4.identity : Mat4 :=
  ⟨1, 0, 0, 0, 0, 1, 0, 0, 0, 0, 1, 0, 0, 0, 0, 1⟩

/-- three.js `Matrix4.makeTranslation`. -/
def Mat4.makeTranslation (tx ty tz : ℚ) : Mat4 :=
  ⟨1, 0, 0, tx, 0, 1, 0, ty, 0, 0, 1, tz, 0, 0, 0, 1⟩

/-- three.js `Matrix4.multiplyMatrices a b` = `a * b`. -/
def Mat4.multiplyMatrices (a b : Mat4) : Mat4 where
  m11 := a.m11 * b.m11 + a.m12 * b.m21 + a.m13 * b.m31 + a.m14 * b.m41
  m12 := a.m11 * b.m12 + a.m12 * b.m22 + a.m13 * b.m32 + a.m14 * b.m42
  m13 := a.m11 * b.m13 + a.m12 * b.m23 + a.m13 * b.m33 + a.m14 * b.m43
  m14 := a.m11 * b.m14 + a.m12 * b.m24 + a.m13 * b.m34 + a.m14 * b.m44
  m21 := a.m21 * b.m11 + a.m22 * b.m21 + a.m23 * b.m31 + a.m24 * b.m41
  m22 := a.m21 * b.m12 + a.m22 * b.m22 + a.m23 * b.m32 + a.m24 * b.m42
  m23 := a.m21 * b.m13 + a.m22 * b.m23 + a.m23 * b.m33 + a.m24 * b.m43
  m24 := a.m21 * b.m14 + a.m22 * b.m24 + a.m23 * b.m34 + a.m24 * b.m44
  m31 := a.m31 * b.m11 + a.m32 * b.m21 + a.m33 * b.m31 + a.m34 * b.m41
  m32 := a.m31 * b.m12 + a.m32 * b.m22 + a.m33 * b.m32 + a.m34 * b.m42
  m33 := a.m31 * b.m13 + a.m32 * b.m23 + a.m33 * b.m33 + a.m34 * b.m43
  m34 := a.m31 * b.m14 + a.m32 * b.m24 + a.m33 * b.m34 + a.m34 * b.m44
  m41 := a.m41 * b.m11 + a.m42 * b.m21 + a.m43 * b.m31 + a.m44 * b.m41
  m42 := a.m41 * b.m12 + a.m42 * b.m22 + a.m43 * b.m32 + a.m44 * b.m42
  m43 := a.m41 * b.m13 + a.m42 * b.m23 + a.m43 * b.m33 + a.m44 * b.m43
  m44 := a.m41 * b.m14 + a.m42 * b.m24 + a.m43 * b.m34 + a.m44 * b.m44

/-- three.js `Vector3.applyMatrix4`, including the perspective divide
(`w = 1 / (m41 x + m42 y + m43 z + m44)`; division by zero yields 0 in `ℚ`,
unreachable for the affine matrices the profile code uses). -/
def Vec3.applyMatrix4 (v : Vec3) (m : Mat4) : Vec3 :=
  let w := 1 / (m.m41 * v.x + m.m42 * v.y + m.m43 * v.z + m.m44)
  ⟨(m.m11 * v.x + m.m12 * v.y + m.m13 * v.z + m.m14) * w,
   (m.m21 * v.x + m.m22 * v.y + m.m23 * v.z + m.m24) * w,
   (m.m31 * v.x + m.m32 * v.y + m.m33 * v.z + m.m34) * w⟩

/-- three.js `Box3`; `none` is the empty box (`min = +∞`, `max = −∞`). -/
def Box3 := Option (Vec3 × Vec3)

instance : DecidableEq Box3 := by
  unfold Box3; infer_instance

/-- The empty box `new Box3()`. -/
def Box3.empty : Box3 := (none : Option (Vec3 × Vec3))

/-- three.js `Box3.expandByPoint`. -/
def Box3.expandByPoint (b : Box3) (p : Vec3) : Box3 :=
  match b with
  | none => some (p, p)
  | some (mn, mx) => some (mn.vmin p, mx.vmax p)

/-- three.js `Box3.union`. -/
def Box3.union (b c : Box3) : Box3 :=
  match b, c with
  | none, c => c
  | b, none => b
  | some (mn, mx), some (mn', mx') => some (mn.vmin mn', mx.vmax mx')

/-- Membership in a box (used to state bounding-box containment). -/
def Box3.contains (b : Box3) (p : Vec3) : Prop :=
  match b with
  | none => False
  | some (mn, mx) => Vec3.le mn p ∧ Vec3.le p mx

instance (b : Box3) (p : Vec3) : Decidable (b.contains p) := by
  unfold Box3.contains; cases b with
  | none => exact inferInstance
  | some v => exact inferInstance

/-- The eight corners of a (non-empty) box, as in three.js `Box3.applyMatrix4`. -/
def boxCorners (mn mx : Vec3) : List Vec3 :=
  [⟨mn.x, mn.y, mn.z⟩, ⟨mn.x, mn.y, mx.z⟩, ⟨mn.x, mx.y, mn.z⟩, ⟨mn.x, mx.y, mx.z⟩,
   ⟨mx.x, mn.y, mn.z⟩, ⟨mx.x, mn.y, mx.z⟩, ⟨mx.x, mx.y, mn.z⟩, ⟨mx.x, mx.y, mx.z⟩]

/-- three.js `Box3.applyMatrix4` on a non-empty box `(mn, mx)`:
transform the eight corners and take their bounding box. -/
def boxApplyMatrix4 (mn mx : Vec3) (m : Mat4) : Vec3 × Vec3 :=
  let pts := (boxCorners mn mx).map (fun p => p.applyMatrix4 m)
  match pts with
  | [] => (mn, mx)
  | p :: rest => (rest.foldl Vec3.vmin p, rest.foldl Vec3.vmax p)

/-- three.js `Box3.getBoundingSphere` of a non-empty box:
center = box center, radius = half the diagonal length. -/
def boxBoundingSphere (mn mx : Vec3) : Vec3 × ℚ :=
  (Vec3.smul (1/2) (mn.add mx), (mx.sub mn).length * (1/2))

/-- three.js `Line3.closestPointToPoint` with `clampToLine = true`:
project `p` onto the segment `[s, e]`, clamping the parameter to `[0, 1]`. -/
def closestPointToPoint (s e p : Vec3) : Vec3 :=
  let d := e.sub s
  let t0 := ((p.sub s).dot d) / d.dot d
  let t := max 0 (min 1 t0)
  s.add (Vec3.smul t d)

/-! ## `Points` (`src/src/profile/points.ts`) -/

/-- The attribute kinds of `points.ts` (`type Attribute = ...`). -/
inductive Attribute where
  | position
  | color
  | indices
  | mileage
  | intensity
  | classification
  | returnNumber
  | numberOfReturns
  | pointSourceID
deriving DecidableEq, Repr

/-- Elements per point of each attribute (spec §3: `position` stride 3,
`color` stride 4, all others stride 1). -/
def Attribute.stride : Attribute → ℕ
  | .position => 3
  | .color => 4
  | _ => 1

/-- `Points`: columnar buffer.  Typed arrays are modelled as `List ℚ`
(every element type of `points.ts` embeds into `ℚ`). -/
structure Points where
  boundingBox : Box3
  projectedBox : Box3
  numPoints : ℕ
  data : Attribute → List ℚ

/-- `new Points()`: empty box, zero points, every column empty. -/
def Points.empty : Points :=
  { boundingBox := Box3.empty
    projectedBox := Box3.empty
    numPoints := 0
    data := fun _ => [] }

/-- JavaScript `TypedArray.prototype.set(src, offset)` on a zero-filled
destination: overlay `src` at `offset` (the code only calls it in-bounds). -/
def listSet (dst : List ℚ) (off : ℕ) (src : List ℚ) : List ℚ :=
  dst.take off ++ src ++ dst.drop (off + src.length)

/-- Functional update of a column map. -/
def updateData (d : Attribute → List ℚ) (a : Attribute) (v : List ℚ) :
    Attribute → List ℚ :=
  fun b => if b = a then v else d b

/-- `Points.add` (`points.ts` lines 26–59).  Per attribute:
* present (non-empty) in both: concatenate;
* only in `this`: zero-extend to `elementsPerPoint * newSize`
  (`elementsPerPoint = length / this.numPoints`, exact under the stride
  invariant; JavaScript float division modelled by `ℕ` division);
* only in `other`: zero-filled array of `elementsPerPoint * newSize` with
  `other`'s data written at offset `elementsPerPoint * currentSize`;
* in neither (both empty): untouched.
Then `numPoints := newSize` and `boundingBox := boundingBox ∪ other.boundingBox`. -/
def Points.add (this other : Points) : Points :=
  let currentSize := this.numPoints
  let additionalSize := other.numPoints
  let newSize := currentSize + additionalSize
  { boundingBox := this.boundingBox.union other.boundingBox
    projectedBox := this.projectedBox
    numPoints := newSize
    data := fun a =>
      let tcol := this.data a
      let ocol := other.data a
      if tcol.length ≠ 0 ∧ ocol.length ≠ 0 then
        tcol ++ ocol
      else if tcol.length ≠ 0 then
        let elementsPerPoint := tcol.length / currentSize
        tcol ++ List.replicate (elementsPerPoint * newSize - tcol.length) 0
      else if ocol.length ≠ 0 then
        let elementsPerPoint := ocol.length / additionalSize
        listSet (List.replicate (elementsPerPoint * newSize) 0)
          (elementsPerPoint * currentSize) ocol
      else tcol }

/-- The column-length invariant of the spec: every non-empty column has
length `numPoints * stride`. -/
def Points.inv (p : Points) : Prop :=
  ∀ a : Attribute, p.data a = [] ∨ (p.data a).length = p.numPoints * a.stride

/-! ## `ProfileData` and segment derivation (`src/unnamed/part_002` lines 23–67) -/

/-- The `Profile` class (`src/unnamed/part_000` lines 243–406): the marker
polyline `points`, the corridor `width` (default 1), the `height` (default
20, unused by the filter) and the `_modifiable` flag (gates marker-sphere
visibility).  The remaining members (`name`, `edges`, `spheres`, `boxes`,
`sphereGeometry`, the two colors and the `Object3D` base) are three.js
scene-graph decorations never read by the profile core (`ProfileData`'s
constructor reads `profile.points`; the request reads `profile.width`) and
carry no data content, so they are not modelled. -/
structure Profile where
  points : List Vec3
  width : ℚ
  height : ℚ
  modifiable : Bool
deriving DecidableEq, Repr

/-- `new Profile()` (part_000 lines 257–263): no markers, the field defaults
(`width = 1`, `height = 20`, `_modifiable = true`); the generated `name` is
not data. -/
def Profile.new : Profile :=
  { points := [], width := 1, height := 20, modifiable := true }

/-- The data content of `Profile.addMarker(point)` (part_000 lines 273–315):
push the point onto `points`.  The sphere/edge/box meshes it creates and the
`marker_added` / `marker_moved` events it dispatches are scene-graph and
notification side effects; the `setPosition(points.length - 1, point)` call
at the end copies the same point back onto the marker just pushed, leaving
`points` unchanged. -/
def Profile.addMarker (p : Profile) (point : Vec3) : Profile :=
  { p with points := p.points ++ [point] }

/-- One entry of `ProfileData.segments` (`ProfileSegment` interface).
`endp` models the source field `end` (a Lean keyword). -/
structure ProfileSegment where
  start : Vec3
  endp : Vec3
  cutPlane : Plane
  halfPlane : Plane
  length : ℚ
  points : Points

/-- The segment built from two consecutive markers
(`ProfileData` constructor body, lines 31–55 of `part_002`). -/
def mkSegment (start endp : Vec3) : ProfileSegment :=
  let startGround := start.setZ 0
  let endGround := endp.setZ 0
  let center := Vec3.smul (1/2) (endGround.add startGround)
  let length := startGround.distanceTo endGround
  let side := (endGround.sub startGround).normalize
  let up : Vec3 := ⟨0, 0, 1⟩
  let forward := (side.cross up).normalize
  let cutPlane := Plane.setFromNormalAndCoplanarPoint forward startGround
  let halfPlane := Plane.setFromNormalAndCoplanarPoint side center
  { start := start
    endp := endp
    cutPlane := cutPlane
    halfPlane := halfPlane
    length := length
    points := Points.empty }

/-- The segment list of `new ProfileData(profile)`: one segment per pair of
consecutive markers. -/
def mkSegments (pts : List Vec3) : List ProfileSegment :=
  (pts.zip pts.tail).map fun pr => mkSegment pr.1 pr.2

/-- `ProfileData`: the per-emission batch. -/
structure ProfileData where
  profile : Profile
  segments : List ProfileSegment
  boundingBox : Box3

/-- `new ProfileData(profile)`. -/
def mkProfileData (profile : Profile) : ProfileData :=
  { profile := profile
    segments := mkSegments profile.points
    boundingBox := Box3.empty }

/-- `ProfileData.size()`: total number of points over all segments. -/
def ProfileData.size (d : ProfileData) : ℕ :=
  (d.segments.map (fun s => s.points.numPoints)).sum

/-! ## `ProfileRequest.getAccepted` (`src/unnamed/part_002` lines 216–281) -/

/-- One accepted point as recorded by `getAccepted`:
`accepted[k] = index`, `mileage[k] = mileage`, the world position written into
`acceptedPositions[3k..3k+2]` and expanded into `points.boundingBox`. -/
structure AcceptedPoint where
  index : ℕ
  mileage : ℚ
  pos : Vec3
deriving DecidableEq, Repr

/-- Point `i` of the node's `position` column
(`view[i*3], view[i*3+1], view[i*3+2]`). -/
def readPos (view : ℕ → ℚ) (i : ℕ) : Vec3 :=
  ⟨view (i * 3), view (i * 3 + 1), view (i * 3 + 2)⟩

/-- The acceptance loop of `getAccepted` (lines 239–274): for each
`i < numPoints`, transform the node-local position to world space, test both
plane distances strictly against `width / 2` and `segment.length / 2`, and on
acceptance record `(i, segmentDir ⬝ (pos − segment.start) + totalMileage, pos)`.
The trimmed arrays `accepted`, `mileage`, `acceptedPositions` of the terminal
yield are exactly the three projections of this list, in input order.
The `performance.now()` checkpoint (`yield false` every 1000 points when over
budget) only suspends the loop and is not modelled. -/
def getAccepted (numPoints : ℕ) (view : ℕ → ℚ) (matrix : Mat4)
    (segment : ProfileSegment) (segmentDir : Vec3) (width : ℚ)
    (totalMileage : ℚ) : List AcceptedPoint :=
  (List.range numPoints).filterMap fun i =>
    let pos := (readPos view i).applyMatrix4 matrix
    let distance := |segment.cutPlane.distanceToPoint pos|
    let centerDistance := |segment.halfPlane.distanceToPoint pos|
    if distance < width / 2 ∧ centerDistance < segment.length / 2 then
      let svp := pos.sub segment.start
      let localMileage := segmentDir.dot svp
      some ⟨i, localMileage + totalMileage, pos⟩
    else none

/-- The bounding box accumulated by `points.boundingBox.expandByPoint(pos)`
over the accepted points of one `getAccepted` run (starting from the box of
the fresh `Points` passed in). -/
def acceptedBox (b0 : Box3) (l : List AcceptedPoint) : Box3 :=
  l.foldl (fun b a => b.expandByPoint a.pos) b0

/-! ## `ProfileRequest.getPointsInsideProfile` (`part_002` lines 283–385) -/

/-- The data of a `PointCloudOctreeGeometryNode` read by the filter:
`numPoints`, whether `geometry` is present, the `position` column (node-local,
as a flat index → value view), the other geometry attributes (already excluding
`position` and `indices`, as the `relevantAttributes` filter does), and the
node's bounding box. -/
structure GeometryNode where
  numPoints : ℕ
  hasGeometry : Bool
  posView : ℕ → ℚ
  attrs : List (Attribute × List ℚ)
  bboxMin : Vec3
  bboxMax : Vec3

/-- The node-intersects-segment test (lines 295–304): world bounding sphere of
the node's box, closest point on the ground-projected segment line at the
sphere center's height, accepted iff `distance < bsWorld.radius + width`. -/
def nodeIntersectsSegment (width : ℚ) (matrixWorld : Mat4)
    (node : GeometryNode) (segment : ProfileSegment) : Prop :=
  let bbWorld := boxApplyMatrix4 node.bboxMin node.bboxMax matrixWorld
  let bs := boxBoundingSphere bbWorld.1 bbWorld.2
  let s : Vec3 := ⟨segment.start.x, segment.start.y, bs.1.z⟩
  let e : Vec3 := ⟨segment.endp.x, segment.endp.y, bs.1.z⟩
  let closest := closestPointToPoint s e bs.1
  closest.distanceTo bs.1 < bs.2 + width

instance (width : ℚ) (mw : Mat4) (n : GeometryNode) (s : ProfileSegment) :
    Decidable (nodeIntersectsSegment width mw n s) := by
  unfold nodeIntersectsSegment; infer_instance

/-- `segmentDir` as computed per node (line 310–311):
`subVectors(segment.end, segment.start).setZ(0)`, normalized. -/
def segDirOf (segment : ProfileSegment) : Vec3 :=
  ((segment.endp.sub segment.start).setZ 0).normalize

/-- Processing of one `(segment, node)` pair inside the profile (lines
308–374): build the per-node `Points` buffer from the accepted points
(`position` = flattened world positions, `mileage`, the other geometry
attributes gathered by the accepted index list with
`numElements = length / numPoints`, exact division in the source guarded by a
throw) and `add` it into `segment.points`.  Returns the updated segment and
the accepted list (the proof log). -/
def processNode (width : ℚ) (matrixWorld : Mat4) (totalMileage : ℚ)
    (node : GeometryNode) (segment : ProfileSegment) :
    ProfileSegment × List AcceptedPoint :=
  if nodeIntersectsSegment width matrixWorld node segment then
    let segmentDir := segDirOf segment
    let nodeMatrix := Mat4.makeTranslation node.bboxMin.x node.bboxMin.y node.bboxMin.z
    let matrix := Mat4.multiplyMatrices matrixWorld nodeMatrix
    let accepted := getAccepted node.numPoints node.posView matrix segment
      segmentDir width totalMileage
    let d0 := updateData Points.empty.data Attribute.position
      (accepted.flatMap fun a => [a.pos.x, a.pos.y, a.pos.z])
    let d1 := node.attrs.foldl (fun d pr =>
      let numElements := pr.2.length / node.numPoints
      updateData d pr.1 (accepted.flatMap fun a =>
        (pr.2.drop (a.index * numElements)).take numElements)) d0
    let d2 := updateData d1 Attribute.mileage (accepted.map (·.mileage))
    let pts : Points :=
      { boundingBox := acceptedBox Box3.empty accepted
        projectedBox := Box3.empty
        numPoints := accepted.length
        data := d2 }
    ({ segment with points := segment.points.add pts }, accepted)
  else (segment, [])

/-- The inner node loop for one segment.  A node with no geometry or zero
points makes the source generator `return` (line 291–293), abandoning the
whole `getPointsInsideProfile` call; the `Bool` is this abort flag. -/
def runNodes (width : ℚ) (matrixWorld : Mat4) (totalMileage : ℚ) :
    List GeometryNode → ProfileSegment →
    ProfileSegment × List AcceptedPoint × Bool
  | [], segment => (segment, [], false)
  | node :: rest, segment =>
    if node.hasGeometry = false ∨ node.numPoints = 0 then (segment, [], true)
    else
      let pr := processNode width matrixWorld totalMileage node segment
      let r := runNodes width matrixWorld totalMileage rest pr.1
      (r.1, pr.2 ++ r.2.1, r.2.2)

/-- The outer segment loop with the `totalMileage` accumulator
(`totalMileage += segment.length` after each segment, line 377).  Returns the
updated segments, the per-segment accepted logs (aligned with the processed
prefix), and the abort flag. -/
def runSegments (width : ℚ) (matrixWorld : Mat4) (nodes : List GeometryNode) :
    List ProfileSegment → ℚ →
    List ProfileSegment × List (List AcceptedPoint) × Bool
  | [], _ => ([], [], false)
  | segment :: rest, totalMileage =>
    let r := runNodes width matrixWorld totalMileage nodes segment
    if r.2.2 then (r.1 :: rest, [r.2.1], true)
    else
      let rr := runSegments width matrixWorld nodes rest (totalMileage + segment.length)
      (r.1 :: rr.1, r.2.1 :: rr.2.1, rr.2.2)

/-- `getPointsInsideProfile(nodes, target)`: run the segment × node loops
starting from `totalMileage = 0`; when the run completes (no abort), union
every segment's point box into `target.boundingBox` (lines 380–382).
The result also carries the accepted logs and the abort flag. -/
def getPointsInsideProfile (matrixWorld : Mat4) (nodes : List GeometryNode)
    (target : ProfileData) : ProfileData × List (List AcceptedPoint) × Bool :=
  let r := runSegments target.profile.width matrixWorld nodes target.segments 0
  if r.2.2 then ({ target with segments := r.1 }, r.2.1, true)
  else
    ({ target with
        segments := r.1
        boundingBox := r.1.foldl (fun b s => b.union s.points.boundingBox)
          target.boundingBox },
      r.2.1, false)

/-! ## `ProfileRequest` state machine (`part_002` lines 69–209, 387–404)

The traversal state is modelled explicitly.  Abstractions, each irrelevant to
the claims proved about the machine:

* the binary heap keyed by `1 / weight` is modelled as a list whose head is
  the next pop (heap order is a property of which element is at the head, not
  of the transition structure the claims are about);
* `traverse` (child expansion through `nodeIntersectsProfile`) is abstracted
  by an environment function `env` giving the nodes it pushes for a served
  node, and the growth of `temporaryResult` by an environment function `acc`
  giving the number of points the filter accepts from a served node;
* callbacks are modelled by invocation counters (`onProgress`, `onFinish`,
  `onCancel`), and served nodes are logged. -/

/-- The per-node data the traversal reads. -/
structure TNode where
  level : ℕ
  loaded : Bool
  radius : ℚ
  hasChildren : Bool
  hierarchyStepSize : ℕ
deriving DecidableEq, Repr

/-- `maxDepth`: a level bound or `⊤` (`Number.MAX_VALUE`). -/
abbrev Depth := WithTop ℕ

/-- The mutable state of a `ProfileRequest`. -/
structure ProfileRequest where
  maxDepth : Depth
  pointsServed : ℕ
  highestLevelServed : ℕ
  cancelRequested : Bool
  queue : List TNode
  tempSize : ℕ
  registered : Bool
  finishCount : ℕ
  cancelCount : ℕ
  progressCount : ℕ
  loadCalls : ℕ
  servedLog : List TNode
deriving DecidableEq, Repr

/-- The state after the constructor: defaults plus the root pushed with
weight `Infinity`. -/
def ProfileRequest.fresh (root : TNode) : ProfileRequest :=
  { maxDepth := (⊤ : WithTop ℕ)
    pointsServed := 0
    highestLevelServed := 0
    cancelRequested := false
    queue := [root]
    tempSize := 0
    registered := true
    finishCount := 0
    cancelCount := 0
    progressCount := 0
    loadCalls := 0
    servedLog := [] }

/-- `finishLevelThenCancel()` (lines 387–394). -/
def ProfileRequest.finishLevelThenCancel (s : ProfileRequest) : ProfileRequest :=
  if s.cancelRequested then s
  else { s with maxDepth := (s.highestLevelServed : WithTop ℕ), cancelRequested := true }

/-- `cancel()` (lines 396–404): invoke `onCancel`, replace the queue by a
fresh empty heap, de-register from the point cloud's request list.  No flag is
set and nothing guards a second call. -/
def ProfileRequest.cancel (s : ProfileRequest) : ProfileRequest :=
  { s with cancelCount := s.cancelCount + 1, queue := [], registered := false }

/-- Phase 1 of one `updateGenerator` run (lines 145–177): pop at most
`maxNodesPerUpdate = 1` node; a node with `level > maxDepth` is discarded; a
loaded node is served (logged, LRU touch, `highestLevelServed` update,
`traverse` children pushed when
`level == 0 || (level % hierarchyStepSize == 0 && hasChildren)`); an unloaded
node gets `load()` called and is re-pushed.  A served node's filter work adds
`acc node` points to `temporaryResult` (lines 178–184, abstracted). -/
def ProfileRequest.tickPop (env : TNode → List TNode) (acc : TNode → ℕ)
    (s : ProfileRequest) : ProfileRequest :=
  match s.queue with
  | [] => s
  | node :: rest =>
    if s.maxDepth < (node.level : WithTop ℕ) then { s with queue := rest }
    else if node.loaded then
      let doTraverse := node.level = 0 ∨
        (node.level % node.hierarchyStepSize = 0 ∧ node.hasChildren)
      { s with
          queue := rest ++ (if doTraverse then env node else [])
          servedLog := s.servedLog ++ [node]
          highestLevelServed := max node.level s.highestLevelServed
          tempSize := s.tempSize + acc node }
    else { s with queue := rest ++ [node], loadCalls := s.loadCalls + 1 }

/-- Phase 2 of a tick (lines 178–190): if a node was served this tick
(`intersectedNodes.length > 0`) and `temporaryResult.size() > 100`, emit it
via `onProgress` and replace the buffer. -/
def ProfileRequest.tickEmit (sPrev s1 : ProfileRequest) : ProfileRequest :=
  if sPrev.servedLog.length < s1.servedLog.length ∧ 100 < s1.tempSize then
    { s1 with
        pointsServed := s1.pointsServed + s1.tempSize
        progressCount := s1.progressCount + 1
        tempSize := 0 }
  else s1

/-- Phase 3 of a tick (lines 192–206): when the queue is empty, emit any
remaining buffer, call `onFinish` and de-register. -/
def ProfileRequest.tickFinalize (s2 : ProfileRequest) : ProfileRequest :=
  if s2.queue = [] then
    let s3 :=
      if 0 < s2.tempSize then
        { s2 with
            pointsServed := s2.pointsServed + s2.tempSize
            progressCount := s2.progressCount + 1
            tempSize := 0 }
      else s2
    { s3 with finishCount := s3.finishCount + 1, registered := false }
  else s2

/-- One full run of `updateGenerator` (lines 139–209), i.e. what one
`update()` call performs, viewed at the granularity of its cooperative
yields: the three phases in order. -/
def ProfileRequest.tick (env : TNode → List TNode) (acc : TNode → ℕ)
    (s : ProfileRequest) : ProfileRequest :=
  ProfileRequest.tickFinalize (ProfileRequest.tickEmit s (ProfileRequest.tickPop env acc s))

/-! ## `ProfileController` (`src/src/profile/profile-controller.ts`) -/

/-- A point cloud as the controller sees it: the `visible` flag it writes, the
octree root it hands to spawned requests, and all its other fields bundled
opaquely in `rest`. -/
structure PointCloud (α : Type) where
  visible : Bool
  root : TNode
  rest : α

/-- The controller state (fields of `ProfileController` read or written by
the modelled operations).  `aggregated` is a ghost counter of the points
appended into `ProfilePointCloudEntry` batches by `progressHandler`;
`spawned` is a ghost counter of created requests; `segEvents` and `finEvents`
count the `recomputed_segment` and `recompute_finished` dispatches. -/
structure ProfileController (α : Type) where
  profile : Option Profile
  numPoints : ℕ
  threshold : ℕ
  scheduledRecomputeTime : Option ℤ
  requests : List ProfileRequest
  pointclouds : List (PointCloud α)
  aggregated : ℕ
  spawned : ℕ
  segEvents : ℕ
  finEvents : ℕ

/-- `progressHandler(pointcloud, progress)` (lines 230–254): set
`pointcloud.visible = true`; for each segment, append its points into the
matching entry (counted by `aggregated`) and dispatch `recomputed_segment`;
finally dispatch `recompute_finished`.  The controller's `numPoints` field is
not touched.  Returns the updated point cloud and controller. -/
def ProfileController.progressHandler {α : Type} (c : ProfileController α)
    (pc : PointCloud α) (progress : ProfileData) :
    PointCloud α × ProfileController α :=
  ({ pc with visible := true },
   { c with
      aggregated := c.aggregated + progress.size
      segEvents := c.segEvents + progress.segments.length
      finEvents := c.finEvents + 1 })

/-- `ProfileController.finishLevelThenCancel()` (lines 294–300): call
`finishLevelThenCancel` on every request, then clear the request list. -/
def ProfileController.finishLevelThenCancel {α : Type}
    (c : ProfileController α) : ProfileController α :=
  { c with requests := [] }

/-- The `onProgress` closure installed by `recompute` (lines 318–324):
run `progressHandler`, then `finishLevelThenCancel` on all requests iff
`numPoints > threshold`. -/
def ProfileController.onProgress {α : Type} (c : ProfileController α)
    (pc : PointCloud α) (progress : ProfileData) :
    PointCloud α × ProfileController α :=
  let r := c.progressHandler pc progress
  (r.1, if r.2.threshold < r.2.numPoints then r.2.finishLevelThenCancel else r.2)

/-- `reset()` (lines 220–228): zero `numPoints`; when a profile is set, call
`cancel()` on every request (the list itself is not cleared). -/
def ProfileController.reset {α : Type} (c : ProfileController α) :
    ProfileController α :=
  let c1 := { c with numPoints := 0 }
  if c1.profile.isSome then
    { c1 with requests := c1.requests.map ProfileRequest.cancel }
  else c1

/-- Modelled from the spec: `PointCloudOctree.getPointsInsideProfile(profile,
maxDepth, callbacks)` is declared in §6 as an `OctreeSource` operation
returning a `ProfileRequest`; its body is not among the provided sources.  It
is modelled as constructing a fresh request seeded with the point cloud's
root (the `ProfileRequest` constructor of `part_002`; `maxDepth` left at its
default `∞`). -/
def spawnRequest {α : Type} (pc : PointCloud α) : ProfileRequest :=
  ProfileRequest.fresh pc.root

/-- `recompute()` (lines 302–335) at wall-clock time `now`:
return if no profile is set; return if `scheduledRecomputeTime` is set to a
future time; otherwise set `scheduledRecomputeTime = now + 100` and
immediately overwrite it with `null`, `reset()`, and push one new request per
visible point cloud. -/
def ProfileController.recompute {α : Type} (c : ProfileController α)
    (now : ℤ) : ProfileController α :=
  match c.profile with
  | none => c
  | some _ =>
    if (match c.scheduledRecomputeTime with
        | some t => decide (now < t)
        | none => false) then c
    else
      let c1 := { c with scheduledRecomputeTime := some (now + 100) }
      let c2 := { c1 with scheduledRecomputeTime := none }
      let c3 := c2.reset
      let fresh := (c3.pointclouds.filter (fun pc => pc.visible)).map spawnRequest
      { c3 with
          requests := c3.requests ++ fresh
          spawned := c3.spawned + fresh.length }

/-! ## Derived definitions used by the statements -/

/-- The world position of point `i` as computed by `getAccepted`
(`pos.applyMatrix4(matrix)` at line 246). -/
def worldPos (view : ℕ → ℚ) (matrix : Mat4) (i : ℕ) : Vec3 :=
  (readPos view i).applyMatrix4 matrix

/-- The acceptance condition of line 250. -/
def acceptCond (view : ℕ → ℚ) (matrix : Mat4) (segment : ProfileSegment)
    (width : ℚ) (i : ℕ) : Prop :=
  |segment.cutPlane.distanceToPoint (worldPos view matrix i)| < width / 2 ∧
  |segment.halfPlane.distanceToPoint (worldPos view matrix i)| < segment.length / 2

/-- The geometric fields of a segment (everything but the points buffer). -/
def sameGeom (s t : ProfileSegment) : Prop :=
  s.start = t.start ∧ s.endp = t.endp ∧ s.cutPlane = t.cutPlane ∧
  s.halfPlane = t.halfPlane ∧ s.length = t.length

/-- Sum of segment (ground-plane) lengths. -/
def sumLen (l : List ProfileSegment) : ℚ := (l.map (fun s => s.length)).sum

/-! ## Concrete inputs for witnesses and counterexamples -/

/-- The segment of the spec's single-segment scenarios:
markers `(0,0,0) → (10,0,0)`. -/
def seg10 : ProfileSegment := mkSegment ⟨0,0,0⟩ ⟨10,0,0⟩

/-- A position view holding the single point `(5,0,0)`. -/
def view5 : ℕ → ℚ := fun j => if j = 0 then 5 else 0

def markers2 : List Vec3 := [⟨0,0,0⟩, ⟨10,0,0⟩]

def profile2 : Profile :=
  { points := markers2, width := 2, height := 20, modifiable := true }

def markers3 : List Vec3 := [⟨0,0,0⟩, ⟨10,0,0⟩, ⟨10,10,0⟩]

def profile3 : Profile :=
  { points := markers3, width := 2, height := 20, modifiable := true }

/-- A node holding the single point `(10,5,0)` (node-local origin at the node
box minimum, as the source's `nodeMatrix` translation expects). -/
def nodeAt1050 : GeometryNode :=
  { numPoints := 1
    hasGeometry := true
    posView := fun _ => 0
    attrs := []
    bboxMin := ⟨10,5,0⟩
    bboxMax := ⟨10,5,0⟩ }

/-- A node claiming points but exposing no geometry. -/
def emptyNode : GeometryNode :=
  { numPoints := 5
    hasGeometry := false
    posView := fun _ => 0
    attrs := []
    bboxMin := ⟨5,0,0⟩
    bboxMax := ⟨5,0,0⟩ }

/-- A loaded node holding the single point `(5,0,0)`. -/
def goodNode : GeometryNode :=
  { numPoints := 1
    hasGeometry := true
    posView := fun _ => 0
    attrs := []
    bboxMin := ⟨5,0,0⟩
    bboxMax := ⟨5,0,0⟩ }

/-- A buffer with one point: `position` and `intensity` columns. -/
def pW : Points :=
  { boundingBox := Box3.empty
    projectedBox := Box3.empty
    numPoints := 1
    data := fun a =>
      match a with
      | .position => [1, 2, 3]
      | .intensity => [100]
      | _ => [] }

/-- A buffer with two points: `position` and `color` columns. -/
def qW : Points :=
  { boundingBox := Box3.empty
    projectedBox := Box3.empty
    numPoints := 2
    data := fun a =>
      match a with
      | .position => [4, 5, 6, 7, 8, 9]
      | .color => [10, 11, 12, 13, 14, 15, 16, 17]
      | _ => [] }

/-- An unloaded root node. -/
def rootNode : TNode :=
  { level := 0, loaded := false, radius := 1, hasChildren := true,
    hierarchyStepSize := 1 }

/-- A freshly constructed request on `rootNode`. -/
def req0 : ProfileRequest := ProfileRequest.fresh rootNode

/-- A visible point cloud. -/
def pc0 : PointCloud Unit := ⟨true, rootNode, ()⟩

/-- A controller with one live request and one visible point cloud, default
threshold. -/
def ctrl0 : ProfileController Unit :=
  { profile := some profile2
    numPoints := 0
    threshold := 60 * 1000
    scheduledRecomputeTime := none
    requests := [req0]
    pointclouds := [pc0]
    aggregated := 0
    spawned := 0
    segEvents := 0
    finEvents := 0 }

/-- A controller with no requests yet. -/
def ctrl1 : ProfileController Unit := { ctrl0 with requests := [] }

/-- A single-marker (invalid per the spec) profile. -/
def profile1 : Profile :=
  { points := [⟨0,0,0⟩], width := 2, height := 20, modifiable := true }

/-- A zero-width (invalid per the spec) profile. -/
def profileW0 : Profile :=
  { points := markers2, width := 0, height := 20, modifiable := true }

/-- A controller whose profile has a single marker. -/
def ctrl2 : ProfileController Unit := { ctrl0 with profile := some profile1 }

/-- A controller whose profile has width 0. -/
def ctrl3 : ProfileController Unit := { ctrl0 with profile := some profileW0 }

/-- A controller with no profile set. -/
def ctrlNoProfile : ProfileController Unit := { ctrl0 with profile := none }

/-- A progress batch of 70 000 points on one segment. -/
def bigPoints : Points := { Points.empty with numPoints := 70 * 1000 }

/-- A `ProfileData` batch carrying `bigPoints`. -/
def bigData : ProfileData :=
  { profile := profile2
    segments := [{ mkSegment ⟨0,0,0⟩ ⟨10,0,0⟩ with points := bigPoints }]
    boundingBox := Box3.empty }

/-! ## Lemmas and claim theorems -/

theorem mem_getAccepted_iff {numPoints : ℕ} {view : ℕ → ℚ} {matrix : Mat4}
    {segment : ProfileSegment} {segmentDir : Vec3} {width totalMileage : ℚ}
    {a : AcceptedPoint} :
    a ∈ getAccepted numPoints view matrix segment segmentDir width totalMileage ↔
      ∃ i, i < numPoints ∧ acceptCond view matrix segment width i ∧
        a = ⟨i, segmentDir.dot ((worldPos view matrix i).sub segment.start) + totalMileage,
             worldPos view matrix i⟩ := by
  unfold getAccepted acceptCond worldPos
  simp only [List.mem_filterMap, List.mem_range]
  constructor
  · rintro ⟨i, hi, h⟩
    split at h
    · rename_i hc
      exact ⟨i, hi, hc, by injection h with h; exact h.symm⟩
    · exact absurd h (by simp)
  · rintro ⟨i, hi, hc, rfl⟩
    exact ⟨i, hi, by rw [if_pos hc]⟩

/-- **C1.** A point examined by `ProfileRequest.getAccepted` is accepted iff
its world position is strictly within `width / 2` of the segment's cut plane
and strictly within `segment.length / 2` of its half plane; in particular a
point whose cut-plane distance is exactly `width / 2` is rejected. -/
theorem getAccepted_accept_iff_strict (numPoints : ℕ) (view : ℕ → ℚ)
    (matrix : Mat4) (segment : ProfileSegment) (segmentDir : Vec3)
    (width totalMileage : ℚ) (i : ℕ) (hi : i < numPoints) :
    ((∃ a ∈ getAccepted numPoints view matrix segment segmentDir width totalMileage,
        a.index = i) ↔
      |segment.cutPlane.distanceToPoint (worldPos view matrix i)| < width / 2 ∧
      |segment.halfPlane.distanceToPoint (worldPos view matrix i)| < segment.length / 2) ∧
    (|segment.cutPlane.distanceToPoint (worldPos view matrix i)| = width / 2 →
      ∀ a ∈ getAccepted numPoints view matrix segment segmentDir width totalMileage,
        a.index ≠ i) := by
  have key : ∀ a ∈ getAccepted numPoints view matrix segment segmentDir width totalMileage,
      a.index = i → acceptCond view matrix segment width i := by
    intro a ha hidx
    rcases mem_getAccepted_iff.1 ha with ⟨j, _, hc, rfl⟩
    simpa [← hidx] using hc
  refine ⟨⟨?_, ?_⟩, ?_⟩
  · rintro ⟨a, ha, hidx⟩
    exact key a ha hidx
  · intro hc
    exact ⟨_, mem_getAccepted_iff.2 ⟨i, hi, hc, rfl⟩, rfl⟩
  · intro heq a ha hidx
    have hc := (key a ha hidx).1
    unfold acceptCond at hc
    rw [heq] at hc
    exact lt_irrefl _ hc

/-- **C1 witness**: one point at `(5,0,0)` against the segment
`(0,0,0) → (10,0,0)` with width 2: accepted, and the boundary case. -/
theorem getAccepted_accept_iff_strict_witness :
    ((∃ a ∈ getAccepted 1 view5 Mat4.identity seg10 ⟨1,0,0⟩ 2 0, a.index = 0) ↔
      |seg10.cutPlane.distanceToPoint (worldPos view5 Mat4.identity 0)| < 2 / 2 ∧
      |seg10.halfPlane.distanceToPoint (worldPos view5 Mat4.identity 0)| < seg10.length / 2) ∧
    (|seg10.cutPlane.distanceToPoint (worldPos view5 Mat4.identity 0)| = 2 / 2 →
      ∀ a ∈ getAccepted 1 view5 Mat4.identity seg10 ⟨1,0,0⟩ 2 0, a.index ≠ 0) :=
  getAccepted_accept_iff_strict 1 view5 Mat4.identity seg10 ⟨1,0,0⟩ 2 0 0 (by decide)


theorem contains_expandByPoint_self (b : Box3) (p : Vec3) :
    (b.expandByPoint p).contains p := by
  match b with
  | none => exact ⟨⟨le_refl _, le_refl _, le_refl _⟩, ⟨le_refl _, le_refl _, le_refl _⟩⟩
  | some (mn, mx) =>
    exact ⟨⟨min_le_right _ _, min_le_right _ _, min_le_right _ _⟩,
           ⟨le_max_right _ _, le_max_right _ _, le_max_right _ _⟩⟩

theorem contains_expandByPoint_mono {b : Box3} {q : Vec3} (p : Vec3)
    (h : b.contains q) : (b.expandByPoint p).contains q := by
  match b with
  | none => exact absurd h id
  | some (mn, mx) =>
    obtain ⟨⟨h1, h2, h3⟩, ⟨h4, h5, h6⟩⟩ := h
    exact ⟨⟨le_trans (min_le_left _ _) h1, le_trans (min_le_left _ _) h2,
            le_trans (min_le_left _ _) h3⟩,
           ⟨le_trans h4 (le_max_left _ _), le_trans h5 (le_max_left _ _),
            le_trans h6 (le_max_left _ _)⟩⟩

theorem contains_union_left {b : Box3} {p : Vec3} (c : Box3)
    (h : b.contains p) : (b.union c).contains p := by
  match b, c with
  | none, _ => exact absurd h id
  | some (mn, mx), none => exact h
  | some (mn, mx), some (mn', mx') =>
    obtain ⟨⟨h1, h2, h3⟩, ⟨h4, h5, h6⟩⟩ := h
    exact ⟨⟨le_trans (min_le_left _ _) h1, le_trans (min_le_left _ _) h2,
            le_trans (min_le_left _ _) h3⟩,
           ⟨le_trans h4 (le_max_left _ _), le_trans h5 (le_max_left _ _),
            le_trans h6 (le_max_left _ _)⟩⟩

theorem contains_union_right {c : Box3} {p : Vec3} (b : Box3)
    (h : c.contains p) : (b.union c).contains p := by
  match b, c with
  | _, none => exact absurd h id
  | none, some (mn, mx) => exact h
  | some (mn', mx'), some (mn, mx) =>
    obtain ⟨⟨h1, h2, h3⟩, ⟨h4, h5, h6⟩⟩ := h
    exact ⟨⟨le_trans (min_le_right _ _) h1, le_trans (min_le_right _ _) h2,
            le_trans (min_le_right _ _) h3⟩,
           ⟨le_trans h4 (le_max_right _ _), le_trans h5 (le_max_right _ _),
            le_trans h6 (le_max_right _ _)⟩⟩

theorem acceptedBox_mono {p : Vec3} (l : List AcceptedPoint) {b : Box3}
    (hb : b.contains p) : (acceptedBox b l).contains p := by
  induction l generalizing b with
  | nil => exact hb
  | cons hd tl ih =>
    unfold acceptedBox
    rw [List.foldl_cons]
    exact ih (contains_expandByPoint_mono _ hb)

theorem contains_acceptedBox {l : List AcceptedPoint} {a : AcceptedPoint}
    (b0 : Box3) (ha : a ∈ l) : (acceptedBox b0 l).contains a.pos := by
  induction l generalizing b0 with
  | nil => exact absurd ha (List.not_mem_nil a)
  | cons hd tl ih =>
    rcases List.mem_cons.1 ha with rfl | hmem
    · unfold acceptedBox
      rw [List.foldl_cons]
      exact acceptedBox_mono tl (contains_expandByPoint_self b0 a.pos)
    · exact ih _ hmem

theorem sameGeom_refl (s : ProfileSegment) : sameGeom s s :=
  ⟨rfl, rfl, rfl, rfl, rfl⟩

theorem sameGeom_trans {s t u : ProfileSegment} (h1 : sameGeom s t)
    (h2 : sameGeom t u) : sameGeom s u := by
  obtain ⟨a1, a2, a3, a4, a5⟩ := h1
  obtain ⟨b1, b2, b3, b4, b5⟩ := h2
  exact ⟨a1.trans b1, a2.trans b2, a3.trans b3, a4.trans b4, a5.trans b5⟩

theorem segDirOf_congr {s t : ProfileSegment} (h : sameGeom s t) :
    segDirOf s = segDirOf t := by
  unfold segDirOf
  rw [h.1, h.2.1]

theorem processNode_geom (w : ℚ) (mw : Mat4) (tm : ℚ) (node : GeometryNode)
    (seg : ProfileSegment) : sameGeom (processNode w mw tm node seg).1 seg := by
  unfold processNode
  split
  · exact ⟨rfl, rfl, rfl, rfl, rfl⟩
  · exact sameGeom_refl seg

theorem processNode_bbox_mono {w : ℚ} {mw : Mat4} {tm : ℚ} {node : GeometryNode}
    {seg : ProfileSegment} {p : Vec3} (h : seg.points.boundingBox.contains p) :
    (processNode w mw tm node seg).1.points.boundingBox.contains p := by
  unfold processNode
  split
  · exact contains_union_left _ h
  · exact h

theorem processNode_log {w : ℚ} {mw : Mat4} {tm : ℚ} {node : GeometryNode}
    {seg : ProfileSegment} {a : AcceptedPoint}
    (ha : a ∈ (processNode w mw tm node seg).2) :
    a.mileage = (segDirOf seg).dot (a.pos.sub seg.start) + tm ∧
    (processNode w mw tm node seg).1.points.boundingBox.contains a.pos := by
  by_cases hint : nodeIntersectsSegment w mw node seg
  · unfold processNode at ha ⊢
    rw [if_pos hint] at ha ⊢
    dsimp only at ha ⊢
    rcases mem_getAccepted_iff.1 ha with ⟨i, _, _, rfl⟩
    exact ⟨rfl, contains_union_right _ (contains_acceptedBox Box3.empty ha)⟩
  · unfold processNode at ha
    rw [if_neg hint] at ha
    exact absurd ha (List.not_mem_nil a)

theorem runNodes_geom (w : ℚ) (mw : Mat4) (tm : ℚ) (nodes : List GeometryNode)
    (seg : ProfileSegment) : sameGeom (runNodes w mw tm nodes seg).1 seg := by
  induction nodes generalizing seg with
  | nil => exact sameGeom_refl seg
  | cons node rest ih =>
    unfold runNodes
    split
    · exact sameGeom_refl seg
    · exact sameGeom_trans (ih _) (processNode_geom w mw tm node seg)

theorem runNodes_bbox_mono {w : ℚ} {mw : Mat4} {tm : ℚ}
    {nodes : List GeometryNode} {seg : ProfileSegment} {p : Vec3}
    (h : seg.points.boundingBox.contains p) :
    (runNodes w mw tm nodes seg).1.points.boundingBox.contains p := by
  induction nodes generalizing seg with
  | nil => exact h
  | cons node rest ih =>
    unfold runNodes
    split
    · exact h
    · exact ih (processNode_bbox_mono h)

theorem runNodes_log {w : ℚ} {mw : Mat4} {tm : ℚ} {nodes : List GeometryNode}
    {seg : ProfileSegment} {a : AcceptedPoint}
    (ha : a ∈ (runNodes w mw tm nodes seg).2.1) :
    a.mileage = (segDirOf seg).dot (a.pos.sub seg.start) + tm ∧
    (runNodes w mw tm nodes seg).1.points.boundingBox.contains a.pos := by
  induction nodes generalizing seg with
  | nil => exact absurd ha (List.not_mem_nil a)
  | cons node rest ih =>
    unfold runNodes at ha ⊢
    split at ha
    · exact absurd ha (List.not_mem_nil a)
    · rename_i hgood
      rw [if_neg hgood]
      dsimp only at ha ⊢
      rw [List.mem_append] at ha
      rcases ha with hmem | hmem
      · refine ⟨(processNode_log hmem).1, ?_⟩
        exact runNodes_bbox_mono (processNode_log hmem).2
      · have hgeom := processNode_geom w mw tm node seg
        have := ih hmem
        rw [segDirOf_congr hgeom, hgeom.1] at this
        exact this

theorem runSegments_spec (w : ℚ) (mw : Mat4) (nodes : List GeometryNode) :
    ∀ (segs : List ProfileSegment) (tm0 : ℚ) (i : ℕ) (la : List AcceptedPoint)
      (a : AcceptedPoint),
      ((runSegments w mw nodes segs tm0).2.1)[i]? = some la → a ∈ la →
      ∃ seg0, segs[i]? = some seg0 ∧
        a.mileage = (tm0 + sumLen (segs.take i)) +
          (segDirOf seg0).dot (a.pos.sub seg0.start) ∧
        ∃ seg1, ((runSegments w mw nodes segs tm0).1)[i]? = some seg1 ∧
          seg1.points.boundingBox.contains a.pos := by
  intro segs
  induction segs with
  | nil =>
    intro tm0 i la a hla _
    simp [runSegments] at hla
  | cons seg rest ih =>
    intro tm0 i la a hla ha
    unfold runSegments at hla ⊢
    by_cases hab : (runNodes w mw tm0 nodes seg).2.2
    · rw [if_pos hab] at hla ⊢
      match i with
      | 0 =>
        simp only [List.getElem?_cons_zero, Option.some.injEq] at hla
        subst hla
        have hlog := runNodes_log ha
        have hgeom := runNodes_geom w mw tm0 nodes seg
        refine ⟨seg, by simp, ?_, (runNodes w mw tm0 nodes seg).1, by simp, hlog.2⟩
        rw [hlog.1]
        simp [sumLen]
        ring
      | (j+1) =>
        simp at hla
    · rw [if_neg hab] at hla ⊢
      match i with
      | 0 =>
        simp only [List.getElem?_cons_zero, Option.some.injEq] at hla
        subst hla
        have hlog := runNodes_log ha
        have hgeom := runNodes_geom w mw tm0 nodes seg
        refine ⟨seg, by simp, ?_, (runNodes w mw tm0 nodes seg).1, by simp, hlog.2⟩
        rw [hlog.1]
        simp [sumLen]
        ring
      | (j+1) =>
        simp only [List.getElem?_cons_succ] at hla ⊢
        rcases ih (tm0 + seg.length) j la a hla ha with
          ⟨seg0, hseg0, hmil, seg1, hseg1, hcont⟩
        refine ⟨seg0, hseg0, ?_, seg1, hseg1, hcont⟩
        rw [hmil]
        simp [sumLen]
        ring

/-- **C2.** Every point accepted on segment `i` records mileage equal to the
sum of the ground-plane lengths of segments `0..i-1` plus
`segmentDir ⬝ (worldPos − segment.start)`, and its world position lies in the
segment's points bounding box; concretely, for markers
`[(0,0,0),(10,0,0),(10,10,0)]` with width 2 a point at `(10,5,0)` is accepted
on the second segment with mileage `10 + 5 = 15`. -/
theorem getPointsInsideProfile_mileage (mw : Mat4) (nodes : List GeometryNode)
    (target : ProfileData) (i : ℕ) (la : List AcceptedPoint) (a : AcceptedPoint) :
    (((getPointsInsideProfile mw nodes target).2.1)[i]? = some la → a ∈ la →
      ∃ seg0, target.segments[i]? = some seg0 ∧
      a.mileage = sumLen (target.segments.take i) +
        (segDirOf seg0).dot (a.pos.sub seg0.start) ∧
      ∃ seg1, ((getPointsInsideProfile mw nodes target).1.segments)[i]? = some seg1 ∧
        seg1.points.boundingBox.contains a.pos) ∧
    (getPointsInsideProfile Mat4.identity [nodeAt1050]
        (mkProfileData profile3)).2.1 = [[], [⟨0, 15, ⟨10,5,0⟩⟩]] := by
  constructor
  · intro hla ha
    have hlogs : (getPointsInsideProfile mw nodes target).2.1 =
        (runSegments target.profile.width mw nodes target.segments 0).2.1 := by
      unfold getPointsInsideProfile
      by_cases h : (runSegments target.profile.width mw nodes target.segments 0).2.2 <;>
        simp [h]
    have hsegs : (getPointsInsideProfile mw nodes target).1.segments =
        (runSegments target.profile.width mw nodes target.segments 0).1 := by
      unfold getPointsInsideProfile
      by_cases h : (runSegments target.profile.width mw nodes target.segments 0).2.2 <;>
        simp [h]
    rw [hlogs] at hla
    rw [hsegs]
    rcases runSegments_spec target.profile.width mw nodes target.segments 0 i la a
      hla ha with ⟨seg0, hseg0, hmil, seg1, hseg1, hcont⟩
    refine ⟨seg0, hseg0, ?_, seg1, hseg1, hcont⟩
    rw [hmil]
    ring
  · norm_num [getPointsInsideProfile, runSegments, runNodes, processNode, profile3,
      markers3, mkProfileData, mkSegments, mkSegment, nodeAt1050, getAccepted, readPos,
      segDirOf, nodeIntersectsSegment, boxApplyMatrix4, boxCorners, boxBoundingSphere,
      closestPointToPoint, acceptedBox, updateData, Points.add, Points.empty,
      Vec3.applyMatrix4, Vec3.add, Vec3.sub, Vec3.smul, Vec3.dot, Vec3.cross,
      Vec3.setZ, Vec3.normSq, Vec3.length, Vec3.distanceTo, Vec3.normalize,
      Vec3.vmin, Vec3.vmax, Mat4.identity, Mat4.makeTranslation, Mat4.multiplyMatrices,
      Plane.setFromNormalAndCoplanarPoint, Plane.distanceToPoint,
      Box3.empty, Box3.expandByPoint, Box3.union, Rat.sqrt, List.range, List.range.loop,
      List.filterMap_cons, List.filterMap_nil]

/-- **C2 witness**: at the two-segment profile, the accepted point `(10,5,0)`
has mileage `15 = length of segment 1 (10) + local mileage (5)` and lies in
the second segment's bounding box. -/
theorem getPointsInsideProfile_mileage_witness :
    ∃ seg0, (mkProfileData profile3).segments[1]? = some seg0 ∧
      (15 : ℚ) = sumLen ((mkProfileData profile3).segments.take 1) +
        (segDirOf seg0).dot (Vec3.sub ⟨10,5,0⟩ seg0.start) ∧
      ∃ seg1, ((getPointsInsideProfile Mat4.identity [nodeAt1050]
          (mkProfileData profile3)).1.segments)[1]? = some seg1 ∧
        seg1.points.boundingBox.contains ⟨10,5,0⟩ := by
  have h := getPointsInsideProfile_mileage Mat4.identity [nodeAt1050]
    (mkProfileData profile3) 1 [⟨0, 15, ⟨10,5,0⟩⟩] ⟨0, 15, ⟨10,5,0⟩⟩
  exact h.1 (by rw [h.2]; simp) (by simp)

/-- **C9 counterexample.** In a batch `[emptyNode, goodNode]` the node without
geometry does not merely get skipped: `getPointsInsideProfile` returns at once
and `goodNode`'s accepted point is lost (0 points recorded), while the same
good node alone yields 1 accepted point. -/
theorem getPointsInsideProfile_abort_counterexample :
    ((getPointsInsideProfile Mat4.identity [emptyNode, goodNode]
        (mkProfileData profile2)).1.segments.map (fun s => s.points.numPoints) = [0] ∧
     (getPointsInsideProfile Mat4.identity [emptyNode, goodNode]
        (mkProfileData profile2)).2.2 = true) ∧
    (getPointsInsideProfile Mat4.identity [goodNode]
        (mkProfileData profile2)).1.segments.map (fun s => s.points.numPoints) = [1] := by
  refine ⟨⟨?_, ?_⟩, ?_⟩ <;>
    norm_num [getPointsInsideProfile, runSegments, runNodes, processNode, profile2,
      markers2, mkProfileData, mkSegments, mkSegment, emptyNode, goodNode, getAccepted,
      readPos, segDirOf, nodeIntersectsSegment, boxApplyMatrix4, boxCorners,
      boxBoundingSphere, closestPointToPoint, acceptedBox, updateData, Points.add,
      Points.empty, Vec3.applyMatrix4, Vec3.add, Vec3.sub, Vec3.smul, Vec3.dot,
      Vec3.cross, Vec3.setZ, Vec3.normSq, Vec3.length, Vec3.distanceTo, Vec3.normalize,
      Vec3.vmin, Vec3.vmax, Mat4.identity, Mat4.makeTranslation, Mat4.multiplyMatrices,
      Plane.setFromNormalAndCoplanarPoint, Plane.distanceToPoint,
      Box3.empty, Box3.expandByPoint, Box3.union, Rat.sqrt, List.range, List.range.loop,
      List.filterMap_cons, List.filterMap_nil]

/-- **C9 amended.** When the first node of the batch has no geometry or zero
points, `getPointsInsideProfile` returns immediately: the segments are left
exactly as they were (every other node's points are lost), the final
bounding-box union is skipped, and the abort is signalled — rather than
skipping only the offending node. -/
theorem getPointsInsideProfile_abort (mw : Mat4) (bad : GeometryNode)
    (rest : List GeometryNode) (target : ProfileData)
    (hbad : bad.hasGeometry = false ∨ bad.numPoints = 0)
    (hne : target.segments ≠ []) :
    (getPointsInsideProfile mw (bad :: rest) target).1.segments = target.segments ∧
    (getPointsInsideProfile mw (bad :: rest) target).1.boundingBox = target.boundingBox ∧
    (getPointsInsideProfile mw (bad :: rest) target).2.2 = true := by
  match hsegs : target.segments with
  | [] => exact absurd hsegs hne
  | seg :: more =>
    have hrn : runNodes target.profile.width mw 0 (bad :: rest) seg = (seg, [], true) := by
      unfold runNodes
      rw [if_pos hbad]
    have hrs : runSegments target.profile.width mw (bad :: rest) (seg :: more) 0 =
        (seg :: more, [[]], true) := by
      unfold runSegments
      rw [hrn]
      rfl
    unfold getPointsInsideProfile
    rw [hsegs, hrs]
    exact ⟨rfl, rfl, rfl⟩

theorem length_ne_zero_of_ne_nil {l : List ℚ} (h : l ≠ []) : l.length ≠ 0 :=
  fun h0 => h (List.length_eq_zero.mp h0)

/-- **C3.** `Points.add` preserves the stride invariant: afterwards every
non-empty column has length `numPoints * stride`; columns present in both are
concatenated, columns only in the receiver are zero-extended, columns only in
the argument are zero-prefixed; `numPoints` becomes the sum and the bounding
box the union. -/
theorem Points_add_spec (p q : Points) (hp : p.inv) (hq : q.inv) :
    (p.add q).inv ∧
    (p.add q).numPoints = p.numPoints + q.numPoints ∧
    (p.add q).boundingBox = p.boundingBox.union q.boundingBox ∧
    ∀ a : Attribute,
      ((p.data a ≠ [] ∧ q.data a ≠ []) →
        (p.add q).data a = p.data a ++ q.data a) ∧
      ((p.data a ≠ [] ∧ q.data a = []) →
        (p.add q).data a = p.data a ++ List.replicate (q.numPoints * a.stride) 0) ∧
      ((p.data a = [] ∧ q.data a ≠ []) →
        (p.add q).data a = List.replicate (p.numPoints * a.stride) 0 ++ q.data a) := by
  have main : ∀ a : Attribute,
      ((p.data a ≠ [] ∧ q.data a ≠ []) →
        (p.add q).data a = p.data a ++ q.data a) ∧
      ((p.data a ≠ [] ∧ q.data a = []) →
        (p.add q).data a = p.data a ++ List.replicate (q.numPoints * a.stride) 0) ∧
      ((p.data a = [] ∧ q.data a ≠ []) →
        (p.add q).data a = List.replicate (p.numPoints * a.stride) 0 ++ q.data a) ∧
      ((p.data a = [] ∧ q.data a = []) → (p.add q).data a = []) := by
    intro a
    show ((_ ∧ _) → (if (p.data a).length ≠ 0 ∧ (q.data a).length ≠ 0 then _ else _) = _) ∧ _
    by_cases hT : p.data a = [] <;> by_cases hQ : q.data a = []
    · refine ⟨fun h => absurd h.1 (by simp [hT]), fun h => absurd h.1 (by simp [hT]),
        fun h => absurd h.2 (by simp [hQ]), fun _ => ?_⟩
      show (if _ then _ else _) = []
      rw [if_neg (by simp [hT]), if_neg (by simp [hT]), if_neg (by simp [hQ])]
      exact hT
    · -- only q nonempty
      have hlen : (q.data a).length = q.numPoints * a.stride :=
        (hq a).resolve_left hQ
      have hn2 : q.numPoints ≠ 0 := by
        intro h0
        rw [h0, Nat.zero_mul] at hlen
        exact hQ (List.length_eq_zero.mp hlen)
      have hePP : (q.data a).length / q.numPoints = a.stride := by
        rw [hlen, Nat.mul_div_cancel_left _ (Nat.pos_of_ne_zero hn2)]
      refine ⟨fun h => absurd h.1 (by simp [hT]), fun h => absurd h.1 (by simp [hT]),
        fun _ => ?_, fun h => absurd h.2 (by simp_all)⟩
      show (if _ then _ else _) = _
      rw [if_neg (by simp [hT]), if_neg (by simp [hT]),
        if_pos (length_ne_zero_of_ne_nil hQ)]
      unfold listSet
      rw [hePP, hlen]
      dsimp only
      rw [List.take_replicate, List.drop_replicate]
      have h1 : min (a.stride * p.numPoints) (a.stride * (p.numPoints + q.numPoints)) =
          a.stride * p.numPoints := by
        apply Nat.min_eq_left
        exact Nat.mul_le_mul_left _ (Nat.le_add_right _ _)
      have h2 : a.stride * (p.numPoints + q.numPoints) -
          (a.stride * p.numPoints + q.numPoints * a.stride) = 0 := by
        rw [Nat.mul_add, Nat.mul_comm q.numPoints a.stride]
        omega
      rw [h1, h2]
      simp [Nat.mul_comm]
    · -- only p nonempty
      have hlen : (p.data a).length = p.numPoints * a.stride :=
        (hp a).resolve_left hT
      have hn1 : p.numPoints ≠ 0 := by
        intro h0
        rw [h0, Nat.zero_mul] at hlen
        exact hT (List.length_eq_zero.mp hlen)
      have hePP : (p.data a).length / p.numPoints = a.stride := by
        rw [hlen, Nat.mul_div_cancel_left _ (Nat.pos_of_ne_zero hn1)]
      refine ⟨fun h => absurd h.2 (by simp [hQ]), fun _ => ?_,
        fun h => absurd h.1 (by simp_all), fun h => absurd h.1 (by simp_all)⟩
      show (if _ then _ else _) = _
      rw [if_neg (by simp [hQ]), if_pos (length_ne_zero_of_ne_nil hT)]
      rw [hePP, hlen]
      dsimp only
      have h3 : a.stride * (p.numPoints + q.numPoints) - p.numPoints * a.stride =
          q.numPoints * a.stride := by
        rw [Nat.mul_add, Nat.mul_comm p.numPoints a.stride,
          Nat.mul_comm q.numPoints a.stride]
        omega
      rw [h3]
    · -- both nonempty
      refine ⟨fun _ => ?_, fun h => absurd h.2 (by simp [hT, hQ]),
        fun h => absurd h.1 (by simp_all), fun h => absurd h.1 (by simp_all)⟩
      show (if _ then _ else _) = _
      rw [if_pos ⟨length_ne_zero_of_ne_nil hT, length_ne_zero_of_ne_nil hQ⟩]
  have hinv : (p.add q).inv := by
    intro a
    have hnum : (p.add q).numPoints = p.numPoints + q.numPoints := rfl
    by_cases hT : p.data a = [] <;> by_cases hQ : q.data a = []
    · exact Or.inl ((main a).2.2.2 ⟨hT, hQ⟩)
    · right
      rw [(main a).2.2.1 ⟨hT, hQ⟩, hnum, List.length_append, List.length_replicate,
        (hq a).resolve_left hQ, Nat.add_mul]
    · right
      rw [(main a).2.1 ⟨hT, hQ⟩, hnum, List.length_append, List.length_replicate,
        (hp a).resolve_left hT, Nat.add_mul]
    · right
      rw [(main a).1 ⟨hT, hQ⟩, hnum, List.length_append,
        (hp a).resolve_left hT, (hq a).resolve_left hQ, Nat.add_mul]
  exact ⟨hinv, rfl, rfl, fun a => ⟨(main a).1, (main a).2.1, (main a).2.2.1⟩⟩

/-- **C3 witness**: `pW` (1 point: position, intensity) added to `qW`
(2 points: position, color) satisfies the full specification. -/
theorem Points_add_spec_witness :
    pW.inv ∧ qW.inv ∧
    ((pW.add qW).inv ∧
     (pW.add qW).numPoints = pW.numPoints + qW.numPoints ∧
     (pW.add qW).boundingBox = pW.boundingBox.union qW.boundingBox ∧
     ∀ a : Attribute,
       ((pW.data a ≠ [] ∧ qW.data a ≠ []) →
         (pW.add qW).data a = pW.data a ++ qW.data a) ∧
       ((pW.data a ≠ [] ∧ qW.data a = []) →
         (pW.add qW).data a = pW.data a ++ List.replicate (qW.numPoints * a.stride) 0) ∧
       ((pW.data a = [] ∧ qW.data a ≠ []) →
         (pW.add qW).data a = List.replicate (pW.numPoints * a.stride) 0 ++ qW.data a)) := by
  have hpW : pW.inv := by
    intro a
    cases a <;> simp [pW, Attribute.stride]
  have hqW : qW.inv := by
    intro a
    cases a <;> simp [qW, Attribute.stride]
  exact ⟨hpW, hqW, Points_add_spec pW qW hpW hqW⟩

/-- **C9 witness**: the amended abort behaviour at the concrete empty node. -/
theorem getPointsInsideProfile_abort_witness :
    (emptyNode.hasGeometry = false ∨ emptyNode.numPoints = 0) ∧
    (mkProfileData profile2).segments ≠ [] ∧
    ((getPointsInsideProfile Mat4.identity [emptyNode] (mkProfileData profile2)).1.segments =
        (mkProfileData profile2).segments ∧
     (getPointsInsideProfile Mat4.identity [emptyNode] (mkProfileData profile2)).1.boundingBox =
        (mkProfileData profile2).boundingBox ∧
     (getPointsInsideProfile Mat4.identity [emptyNode] (mkProfileData profile2)).2.2 = true) :=
  ⟨Or.inl rfl, by simp [mkProfileData, profile2, markers2, mkSegments],
   getPointsInsideProfile_abort Mat4.identity emptyNode [] (mkProfileData profile2)
     (Or.inl rfl) (by simp [mkProfileData, profile2, markers2, mkSegments])⟩

theorem tickEmit_fields (sPrev s1 : ProfileRequest) :
    (ProfileRequest.tickEmit sPrev s1).queue = s1.queue ∧
    (ProfileRequest.tickEmit sPrev s1).servedLog = s1.servedLog ∧
    (ProfileRequest.tickEmit sPrev s1).highestLevelServed = s1.highestLevelServed ∧
    (ProfileRequest.tickEmit sPrev s1).loadCalls = s1.loadCalls ∧
    (ProfileRequest.tickEmit sPrev s1).cancelCount = s1.cancelCount ∧
    (ProfileRequest.tickEmit sPrev s1).finishCount = s1.finishCount := by
  unfold ProfileRequest.tickEmit
  split <;> exact ⟨rfl, rfl, rfl, rfl, rfl, rfl⟩

theorem tickFinalize_fields (s2 : ProfileRequest) :
    (ProfileRequest.tickFinalize s2).queue = s2.queue ∧
    (ProfileRequest.tickFinalize s2).servedLog = s2.servedLog ∧
    (ProfileRequest.tickFinalize s2).highestLevelServed = s2.highestLevelServed ∧
    (ProfileRequest.tickFinalize s2).loadCalls = s2.loadCalls ∧
    (ProfileRequest.tickFinalize s2).cancelCount = s2.cancelCount ∧
    (s2.queue = [] → (ProfileRequest.tickFinalize s2).finishCount = s2.finishCount + 1) := by
  unfold ProfileRequest.tickFinalize
  by_cases h : s2.queue = []
  · rw [if_pos h]
    split <;> exact ⟨rfl, rfl, rfl, rfl, rfl, fun _ => rfl⟩
  · rw [if_neg h]
    exact ⟨rfl, rfl, rfl, rfl, rfl, fun hc => absurd hc h⟩

theorem tickPop_discard {env : TNode → List TNode} {acc : TNode → ℕ}
    {t : ProfileRequest} {n : TNode} {rest : List TNode}
    (hq : t.queue = n :: rest) (hgt : t.maxDepth < (n.level : WithTop ℕ)) :
    ProfileRequest.tickPop env acc t = { t with queue := rest } := by
  unfold ProfileRequest.tickPop
  rw [hq]
  exact if_pos hgt

theorem tickPop_serve {env : TNode → List TNode} {acc : TNode → ℕ}
    {t : ProfileRequest} {n : TNode} {rest : List TNode}
    (hq : t.queue = n :: rest) (hgt : ¬ t.maxDepth < (n.level : WithTop ℕ))
    (hl : n.loaded = true) :
    ProfileRequest.tickPop env acc t =
      { t with
          queue := rest ++ (if n.level = 0 ∨
            (n.level % n.hierarchyStepSize = 0 ∧ n.hasChildren) then env n else [])
          servedLog := t.servedLog ++ [n]
          highestLevelServed := max n.level t.highestLevelServed
          tempSize := t.tempSize + acc n } := by
  unfold ProfileRequest.tickPop
  rw [hq]
  dsimp only
  rw [if_neg hgt, if_pos hl]

/-- **C8.** After `finishLevelThenCancel()` on a not-yet-cancelled request,
`maxDepth` equals the `highestLevelServed` at call time and `cancelRequested`
is true; any popped node deeper than `maxDepth` is dropped without being
loaded or served; a loaded popped node at an admissible level is still served
to completion; no tick ever invokes `onCancel`; and a tick with an empty
queue invokes `onFinish`. -/
theorem finishLevelThenCancel_graceful (s : ProfileRequest)
    (h : s.cancelRequested = false) (env : TNode → List TNode) (acc : TNode → ℕ) :
    (s.finishLevelThenCancel.maxDepth = (s.highestLevelServed : WithTop ℕ) ∧
     s.finishLevelThenCancel.cancelRequested = true) ∧
    (∀ (t : ProfileRequest) (n : TNode) (rest : List TNode),
      t.queue = n :: rest → t.maxDepth < (n.level : WithTop ℕ) →
        (ProfileRequest.tick env acc t).queue = rest ∧
        (ProfileRequest.tick env acc t).loadCalls = t.loadCalls ∧
        (ProfileRequest.tick env acc t).servedLog = t.servedLog ∧
        (ProfileRequest.tick env acc t).highestLevelServed = t.highestLevelServed) ∧
    (∀ (t : ProfileRequest) (n : TNode) (rest : List TNode),
      t.queue = n :: rest → ¬ t.maxDepth < (n.level : WithTop ℕ) → n.loaded = true →
        (ProfileRequest.tick env acc t).servedLog = t.servedLog ++ [n] ∧
        (ProfileRequest.tick env acc t).highestLevelServed = max n.level t.highestLevelServed) ∧
    (∀ t : ProfileRequest, (ProfileRequest.tick env acc t).cancelCount = t.cancelCount) ∧
    (∀ t : ProfileRequest, t.queue = [] →
        (ProfileRequest.tick env acc t).finishCount = t.finishCount + 1) := by
  refine ⟨?_, ?_, ?_, ?_, ?_⟩
  · unfold ProfileRequest.finishLevelThenCancel
    rw [if_neg (by simp [h])]
    exact ⟨rfl, rfl⟩
  · intro t n rest hq hgt
    unfold ProfileRequest.tick
    rw [tickPop_discard hq hgt]
    obtain ⟨he1, he2, he3, he4, he5, he6⟩ :=
      tickEmit_fields t { t with queue := rest }
    obtain ⟨hf1, hf2, hf3, hf4, hf5, hf6⟩ :=
      tickFinalize_fields (ProfileRequest.tickEmit t { t with queue := rest })
    exact ⟨hf1.trans he1, hf4.trans he4, hf2.trans he2, hf3.trans he3⟩
  · intro t n rest hq hgt hl
    unfold ProfileRequest.tick
    rw [tickPop_serve hq hgt hl]
    obtain ⟨he1, he2, he3, he4, he5, he6⟩ := tickEmit_fields t _
    obtain ⟨hf1, hf2, hf3, hf4, hf5, hf6⟩ := tickFinalize_fields _
    exact ⟨hf2.trans he2, hf3.trans he3⟩
  · intro t
    unfold ProfileRequest.tick
    obtain ⟨he1, he2, he3, he4, he5, he6⟩ :=
      tickEmit_fields t (ProfileRequest.tickPop env acc t)
    obtain ⟨hf1, hf2, hf3, hf4, hf5, hf6⟩ :=
      tickFinalize_fields (ProfileRequest.tickEmit t (ProfileRequest.tickPop env acc t))
    have hp : (ProfileRequest.tickPop env acc t).cancelCount = t.cancelCount := by
      unfold ProfileRequest.tickPop
      rcases hq : t.queue with _ | ⟨n, rest⟩
      · rfl
      · dsimp only
        split
        · rfl
        · split <;> rfl
    exact (hf5.trans he5).trans hp
  · intro t hq
    unfold ProfileRequest.tick
    have hp : ProfileRequest.tickPop env acc t = t := by
      unfold ProfileRequest.tickPop
      rw [hq]
    rw [hp]
    obtain ⟨he1, he2, he3, he4, he5, he6⟩ := tickEmit_fields t t
    obtain ⟨hf1, hf2, hf3, hf4, hf5, hf6⟩ :=
      tickFinalize_fields (ProfileRequest.tickEmit t t)
    rw [hf6 (he1.trans hq), he6]

/-- **C8 witness**: a fresh request, `finishLevelThenCancel` applied once. -/
theorem finishLevelThenCancel_graceful_witness :
    req0.cancelRequested = false ∧
    (req0.finishLevelThenCancel.maxDepth = (req0.highestLevelServed : WithTop ℕ) ∧
     req0.finishLevelThenCancel.cancelRequested = true) :=
  ⟨rfl, (finishLevelThenCancel_graceful req0 rfl (fun _ => []) (fun _ => 0)).1⟩

/-- **C7 counterexample.** A second `cancel()` is not a no-op: it invokes
`onCancel` again (two invocations in total); moreover after a `cancel()` a
further `update()` tick invokes `onFinish` as well, so a single request can
see both callbacks. -/
theorem cancel_not_idempotent_counterexample :
    req0.cancel.cancel.cancelCount = 2 ∧
    req0.cancel.cancel ≠ req0.cancel ∧
    (ProfileRequest.tick (fun _ => []) (fun _ => 0) req0.cancel).cancelCount = 1 ∧
    (ProfileRequest.tick (fun _ => []) (fun _ => 0) req0.cancel).finishCount = 1 := by
  refine ⟨rfl, ?_, rfl, rfl⟩
  intro hcontra
  have : req0.cancel.cancel.cancelCount = req0.cancel.cancelCount := by rw [hcontra]
  simp [ProfileRequest.cancel] at this

/-- **C7 amended.** `cancel()` invokes `onCancel` on every call (it is not
idempotent — each repetition adds an invocation), and after a `cancel()` a
subsequent `update()` tick finds the queue empty and invokes `onFinish`, so
more than one callback can fire over a request's lifetime. -/
theorem cancel_always_fires (s : ProfileRequest) (env : TNode → List TNode)
    (acc : TNode → ℕ) :
    s.cancel.cancelCount = s.cancelCount + 1 ∧
    s.cancel.cancel.cancelCount = s.cancelCount + 2 ∧
    s.cancel.queue = [] ∧
    (ProfileRequest.tick env acc s.cancel).cancelCount = s.cancelCount + 1 ∧
    (ProfileRequest.tick env acc s.cancel).finishCount = s.finishCount + 1 := by
  refine ⟨rfl, rfl, rfl, ?_, ?_⟩
  · unfold ProfileRequest.tick
    have hp : ProfileRequest.tickPop env acc s.cancel = s.cancel := by
      unfold ProfileRequest.tickPop ProfileRequest.cancel
      rfl
    rw [hp]
    obtain ⟨he1, he2, he3, he4, he5, he6⟩ := tickEmit_fields s.cancel s.cancel
    obtain ⟨hf1, hf2, hf3, hf4, hf5, hf6⟩ :=
      tickFinalize_fields (ProfileRequest.tickEmit s.cancel s.cancel)
    exact (hf5.trans he5).trans rfl
  · unfold ProfileRequest.tick
    have hp : ProfileRequest.tickPop env acc s.cancel = s.cancel := by
      unfold ProfileRequest.tickPop ProfileRequest.cancel
      rfl
    rw [hp]
    obtain ⟨he1, he2, he3, he4, he5, he6⟩ := tickEmit_fields s.cancel s.cancel
    obtain ⟨hf1, hf2, hf3, hf4, hf5, hf6⟩ :=
      tickFinalize_fields (ProfileRequest.tickEmit s.cancel s.cancel)
    rw [hf6 (he1.trans rfl), he6]
    rfl

/-- **C4 (code bug).** The controller's `numPoints` field is never
incremented by `progressHandler`, so the `numPoints > threshold` guard in the
`onProgress` closure never fires: after handling a 70 000-point batch against
the default threshold of 60 000, the aggregated point count exceeds the
threshold yet `numPoints` is still 0, the request list is untouched and the
live request still has `cancelRequested = false`. -/
theorem onProgress_threshold_never_fires :
    (ctrl0.onProgress pc0 bigData).2.aggregated = 70 * 1000 ∧
    ctrl0.threshold = 60 * 1000 ∧
    (ctrl0.onProgress pc0 bigData).2.numPoints = 0 ∧
    (ctrl0.onProgress pc0 bigData).2.requests = [req0] ∧
    req0.cancelRequested = false :=
  ⟨rfl, rfl, rfl, rfl, rfl⟩

/-- **C5 (code bug).** `recompute()` sets `scheduledRecomputeTime` and
immediately clears it, so the debounce gate never drops a call: a second
`recompute()` 50 ms after the first (within the 100 ms window) passes the
gate, cancels the first spawned request (`cancelCount` becomes 1) and spawns
a second one — two effective traversals, not one. -/
theorem recompute_debounce_ineffective :
    (ctrl1.recompute 0).scheduledRecomputeTime = none ∧
    (ctrl1.recompute 0).spawned = 1 ∧
    ((ctrl1.recompute 0).recompute 50).spawned = 2 ∧
    ((ctrl1.recompute 0).recompute 50).requests.map
      (fun r => r.cancelCount) = [1, 0] :=
  ⟨rfl, rfl, rfl, rfl⟩

/-- **C6 counterexample.** `recompute()` does not validate the profile: with
a single-marker profile (and likewise with a zero-width profile) it is not a
no-op — it cancels the existing request and spawns a new one. -/
theorem recompute_invalid_profile_counterexample :
    profile1.points.length = 1 ∧
    (ctrl2.recompute 0).spawned = 1 ∧
    (ctrl2.recompute 0).requests.map (fun r => r.cancelCount) = [1, 0] ∧
    profileW0.width = 0 ∧
    (ctrl3.recompute 0).spawned = 1 ∧
    (ctrl3.recompute 0).requests.map (fun r => r.cancelCount) = [1, 0] :=
  ⟨rfl, rfl, rfl, rfl, rfl, rfl⟩

/-- **C6 amended.** `recompute()` is a no-op exactly when no profile object is
set (`this.profile === null`); a profile with fewer than 2 markers or
non-positive width is not checked and still resets state and spawns requests. -/
theorem recompute_noop_iff_no_profile {α : Type} (c : ProfileController α)
    (now : ℤ) (h : c.profile = none) : c.recompute now = c := by
  unfold ProfileController.recompute
  rw [h]

/-- **C6 witness**: a controller with no profile is untouched by `recompute`. -/
theorem recompute_noop_iff_no_profile_witness :
    ctrlNoProfile.profile = none ∧ ctrlNoProfile.recompute 0 = ctrlNoProfile :=
  ⟨rfl, recompute_noop_iff_no_profile ctrlNoProfile 0 rfl⟩

/-- **C10.** Every `progressHandler(pointcloud, data)` call sets
`pointcloud.visible` to true — whatever its previous value — and changes no
other field of the point cloud. -/
theorem progressHandler_sets_visible {α : Type} (c : ProfileController α)
    (pc : PointCloud α) (d : ProfileData) :
    (c.progressHandler pc d).1.visible = true ∧
    (c.progressHandler pc d).1.root = pc.root ∧
    (c.progressHandler pc d).1.rest = pc.rest :=
  ⟨rfl, rfl, rfl⟩
